import Mathlib

/-!
Verification of the LyricsBeats backend against its natural-language
specification.

The development shallowly embeds the relevant Python code:

* pure numeric code (the local DSP helper functions, numpy array
  arithmetic, `librosa.util.normalize`) becomes functions over `List ℚ`;
* calls into third-party numeric libraries whose internals are not part of
  this repository (`librosa.effects.pitch_shift`, `time_stretch`,
  `scipy.signal.filtfilt`, `basic_pitch.inference.predict`,
  `music21.converter.parse`, ...) become uninterpreted function parameters
  packaged in environment structures, or uninterpreted constructors of an
  expression type when only the call structure matters;
* fallible calls return `Except String`, and a Python `try/except`
  becomes a `match` on that value;
* file-system and logging side effects become an explicit event trace.

The repository contains two parallel implementations of the audio
pipeline: the modular package `backend/audio_processing` (used by
`backend/api`) and the monolithic `backend/server.py`.  Where the two
differ, both are embedded, in namespaces `AudioProcessing` and `Server`.
-/

namespace LyricsBeats

instance exceptDecEq {α β : Type} [DecidableEq α] [DecidableEq β] :
    DecidableEq (Except α β) := fun x y =>
  match x, y with
  | .ok a, .ok b =>
    if h : a = b then isTrue (by rw [h]) else
      isFalse (fun hc => h (by injection hc))
  | .error a, .error b =>
    if h : a = b then isTrue (by rw [h]) else
      isFalse (fun hc => h (by injection hc))
  | .ok _, .error _ => isFalse (fun hc => Except.noConfusion hc)
  | .error _, .ok _ => isFalse (fun hc => Except.noConfusion hc)

/-- A mono audio signal, as produced by `librosa.load` with the default
`mono=True`: a one-dimensional array of samples, modelled over `ℚ`. -/
abbrev Sig := List ℚ

/-- Sample a signal at an integer index, reading `0` outside its range.
This models the zero extension used in the mathematical definition of
discrete convolution. -/
def sampleAt (a : Sig) (i : ℤ) : ℚ :=
  if 0 ≤ i then a.getD i.toNat 0 else 0

/-- Peak absolute value of a signal: `np.max(np.abs(a))`, with `0` for the
empty array (the form in which it is used by `librosa.util.normalize`). -/
def peak (l : Sig) : ℚ := l.foldr (fun x m => max |x| m) 0

/-- A signal is non-silent when some sample is nonzero. -/
def nonSilent (l : Sig) : Prop := ∃ n, n < l.length ∧ l.getD n 0 ≠ 0

instance (l : Sig) : Decidable (nonSilent l) := by
  unfold nonSilent; infer_instance

lemma peak_nonneg (l : Sig) : 0 ≤ peak l := by
  induction l with
  | nil => simp [peak]
  | cons x t ih => simp only [peak, List.foldr] at *; exact le_trans ih (le_max_right _ _)

lemma abs_le_peak (l : Sig) (n : ℕ) (hn : n < l.length) : |l.getD n 0| ≤ peak l := by
  induction l generalizing n with
  | nil => simp at hn
  | cons x t ih =>
    cases n with
    | zero => simp only [peak, List.foldr, List.getD]; exact le_max_left _ _
    | succ m =>
      have hm : m < t.length := by simpa using hn
      have := ih m hm
      simp only [peak, List.foldr, List.getD] at *
      exact le_trans this (le_max_right _ _)

lemma peak_pos_of_nonSilent (l : Sig) (h : nonSilent l) : 0 < peak l := by
  obtain ⟨n, hn, hx⟩ := h
  have h1 := abs_le_peak l n hn
  have h2 : 0 < |l.getD n 0| := abs_pos.mpr hx
  exact lt_of_lt_of_le h2 h1

lemma max_div_of_pos (a b p : ℚ) (hp : 0 < p) : max (a / p) (b / p) = max a b / p := by
  rcases le_total a b with h | h
  · have h2 : a / p ≤ b / p := by gcongr
    rw [max_eq_right h, max_eq_right h2]
  · have h2 : b / p ≤ a / p := by gcongr
    rw [max_eq_left h, max_eq_left h2]

lemma peak_map_div (l : Sig) (p : ℚ) (hp : 0 < p) :
    peak (l.map (fun x => x / p)) = peak l / p := by
  induction l with
  | nil => simp [peak]
  | cons x t ih =>
    simp only [peak, List.map, List.foldr] at *
    rw [ih, abs_div, abs_of_pos hp, max_div_of_pos]
    exact hp

lemma getD_take (l : List ℚ) (m n : ℕ) (h : n < m) : (l.take m).getD n 0 = l.getD n 0 := by
  induction l generalizing m n with
  | nil => simp
  | cons x t ih =>
    cases m with
    | zero => omega
    | succ m2 =>
      cases n with
      | zero => rfl
      | succ n2 => exact ih m2 n2 (by omega)

lemma getD_drop (l : List ℚ) (m n : ℕ) : (l.drop m).getD n 0 = l.getD (m + n) 0 := by
  induction l generalizing m n with
  | nil => simp
  | cons x t ih =>
    cases m with
    | zero => simp
    | succ m2 =>
      have h2 : m2 + 1 + n = (m2 + n) + 1 := by omega
      rw [h2]
      exact ih m2 n

lemma getD_append_lt (a b : List ℚ) (n : ℕ) (h : n < a.length) :
    (a ++ b).getD n 0 = a.getD n 0 := by
  induction a generalizing n with
  | nil => simp at h
  | cons x t ih =>
    cases n with
    | zero => rfl
    | succ n2 => exact ih n2 (by simpa using h)

lemma getD_append_ge (a b : List ℚ) (n : ℕ) (h : a.length ≤ n) :
    (a ++ b).getD n 0 = b.getD (n - a.length) 0 := by
  induction a generalizing n with
  | nil => simp
  | cons x t ih =>
    cases n with
    | zero => simp at h
    | succ n2 =>
      have h2 := ih n2 (by simpa using h)
      simpa using h2

lemma getD_replicate_lt (k n : ℕ) (a : ℚ) (h : n < k) : (List.replicate k a).getD n 0 = a := by
  induction k generalizing n with
  | zero => omega
  | succ k2 ih =>
    cases n with
    | zero => rfl
    | succ n2 => exact ih n2 (by omega)

lemma getD_zipWith (f : ℚ → ℚ → ℚ) (a b : List ℚ) (n : ℕ)
    (ha : n < a.length) (hb : n < b.length) :
    (List.zipWith f a b).getD n 0 = f (a.getD n 0) (b.getD n 0) := by
  induction a generalizing b n with
  | nil => simp at ha
  | cons x t ih =>
    cases b with
    | nil => simp at hb
    | cons y u =>
      cases n with
      | zero => rfl
      | succ n2 => exact ih u n2 (by simpa using ha) (by simpa using hb)

lemma getD_map_fn (f : ℚ → ℚ) (l : List ℚ) (n : ℕ) (h : n < l.length) :
    (l.map f).getD n 0 = f (l.getD n 0) := by
  induction l generalizing n with
  | nil => simp at h
  | cons x t ih =>
    cases n with
    | zero => rfl
    | succ n2 => exact ih n2 (by simpa using h)

lemma getD_map_range (N n : ℕ) (f : ℕ → ℚ) (h : n < N) :
    ((List.range N).map f).getD n 0 = f n := by
  have hl : n < ((List.range N).map f).length := by simpa using h
  rw [List.getD_eq_getElem _ _ hl]
  simp

/-! ## Discrete convolution (numpy)

`np.convolve(a, v)` computes the full linear convolution
`(a * v)[k] = sum over j of a[j] * v[k - j]`, of length
`len(a) + len(v) - 1`; with `mode = same` the result is the centred slice
of length `max(len(a), len(v))`, starting at `(min(len(a), len(v)) - 1) / 2`
into the full convolution. -/

/-- Full linear convolution, following the defining formula of
`np.convolve`. -/
def npConvolveFull (a v : Sig) : Sig :=
  (List.range (a.length + v.length - 1)).map
    (fun k : ℕ => ∑ j ∈ Finset.range a.length, a.getD j 0 * sampleAt v ((k : ℤ) - (j : ℤ)))

/-- `np.convolve(a, v, mode = same)`: centred slice of the full
convolution. -/
def npConvolveSame (a v : Sig) : Sig :=
  ((npConvolveFull a v).drop ((min a.length v.length - 1) / 2)).take (max a.length v.length)

namespace Server

/-- Embedding of `add_reverb_effect` from `backend/server.py` (lines
177-187): convolve the audio with an impulse response (there generated
from exponentially decaying noise, here an arbitrary parameter) in
`same` mode, then mix 90 percent original with 10 percent reverb.
Requires the broadcastable case `len(impulse) <= len(audio)`; otherwise
the Python addition of mismatched shapes raises. -/
def add_reverb_effect (audio impulse : Sig) : Sig :=
  let reverbAudio := npConvolveSame audio impulse
  List.zipWith (fun x r => 9/10 * x + 1/10 * r) audio reverbAudio

end Server

namespace AudioProcessing

/-- Embedding of `add_reverb_effect` from
`backend/audio_processing/__init__.py` (lines 104-113): a 30 ms
delay line at 30 percent wet, added to the original.  The delay count
`int(0.03 * sr)` is modelled as `3 * sr / 100` with natural division. -/
def add_reverb_effect (audio : Sig) (sr : ℕ) : Sig :=
  let delaySamples := 3 * sr / 100
  let delayLine := List.replicate delaySamples (0 : ℚ) ++ audio
  let reverbSignal := (delayLine.take audio.length).map (fun x => x * (3/10))
  List.zipWith (· + ·) audio reverbSignal

end AudioProcessing

/-- C4: the reverb stage of the audio transformation is convolution
reverb: every output sample mixes the original sample with a convolution
of the input against an impulse response.  Part one covers
`server.py`'s `add_reverb_effect` (explicit `np.convolve` in `same`
mode, 90/10 dry/wet mix, stated for the broadcastable case
`0 < len(impulse) <= len(audio)`); part two covers the
`audio_processing` module's delay-line variant, whose output equals the
input plus its convolution with the single-tap impulse response
`[0, ..., 0, 0.3]` of delay `int(0.03 * sr)`. -/
theorem c4_reverb_is_convolution_mix :
    (∀ (audio impulse : Sig) (n : ℕ),
        0 < impulse.length → impulse.length ≤ audio.length → n < audio.length →
        (Server.add_reverb_effect audio impulse).getD n 0
          = 9/10 * audio.getD n 0
            + 1/10 * ∑ j ∈ Finset.range audio.length,
                audio.getD j 0 *
                  sampleAt impulse ((n : ℤ) + (((impulse.length - 1) / 2 : ℕ) : ℤ) - (j : ℤ)))
    ∧
    (∀ (audio : Sig) (sr : ℕ) (n : ℕ), n < audio.length →
        (AudioProcessing.add_reverb_effect audio sr).getD n 0
          = audio.getD n 0
            + ∑ j ∈ Finset.range (3 * sr / 100 + 1),
                (List.replicate (3 * sr / 100) (0:ℚ) ++ [3/10]).getD j 0 *
                  sampleAt audio ((n : ℤ) - (j : ℤ))) := by
  constructor
  · intro audio impulse n h1 hle hn
    have hofflt : (impulse.length - 1) / 2 ≤ impulse.length - 1 := Nat.div_le_self _ _
    have hmin : min audio.length impulse.length = impulse.length := min_eq_right hle
    have hmax : max audio.length impulse.length = audio.length := max_eq_left hle
    have hfulllen : (npConvolveFull audio impulse).length
        = audio.length + impulse.length - 1 := by
      simp only [npConvolveFull, List.length_map, List.length_range]
    have hsamelen : (npConvolveSame audio impulse).length = audio.length := by
      simp only [npConvolveSame, List.length_take, List.length_drop, hfulllen, hmin, hmax]
      omega
    have hnsame : n < (npConvolveSame audio impulse).length := by omega
    have hsame : (npConvolveSame audio impulse).getD n 0
        = ∑ j ∈ Finset.range audio.length, audio.getD j 0 *
            sampleAt impulse ((((impulse.length - 1) / 2 + n : ℕ) : ℤ) - (j : ℤ)) := by
      simp only [npConvolveSame, hmin, hmax]
      rw [getD_take _ _ _ hn, getD_drop]
      simp only [npConvolveFull]
      rw [getD_map_range _ _ _ (by omega)]
    simp only [Server.add_reverb_effect]
    rw [getD_zipWith _ _ _ _ hn hnsame, hsame]
    congr 1
    congr 1
    apply Finset.sum_congr rfl
    intro j hj
    congr 2
    push_cast
    ring
  · intro audio sr n hn
    simp only [AudioProcessing.add_reverb_effect]
    have hreva : ((List.replicate (3 * sr / 100) (0:ℚ) ++ audio).take audio.length).length
        = audio.length := by
      simp only [List.length_take, List.length_append, List.length_replicate]
      omega
    have hrevb : (((List.replicate (3 * sr / 100) (0:ℚ) ++ audio).take audio.length).map
        (fun x => x * (3/10))).length = audio.length := by
      rw [List.length_map, hreva]
    rw [getD_zipWith _ _ _ _ hn (by rw [hrevb]; exact hn)]
    have hsum : ∑ j ∈ Finset.range (3 * sr / 100 + 1),
        (List.replicate (3 * sr / 100) (0:ℚ) ++ [3/10]).getD j 0 *
          sampleAt audio ((n : ℤ) - (j : ℤ))
        = (3/10) * sampleAt audio ((n : ℤ) - ((3 * sr / 100 : ℕ) : ℤ)) := by
      rw [Finset.sum_eq_single (3 * sr / 100)]
      · congr 1
        rw [getD_append_ge _ _ _ (by simp)]
        simp
      · intro b hb hbne
        have hblt : b < 3 * sr / 100 := by
          have := Finset.mem_range.mp hb
          omega
        rw [getD_append_lt _ _ _ (by simpa using hblt), getD_replicate_lt _ _ _ hblt]
        ring
      · intro hnot
        exact absurd (Finset.mem_range.mpr (by omega)) hnot
    rw [hsum, getD_map_fn _ _ _ (by rw [hreva]; exact hn), getD_take _ _ _ hn]
    by_cases hcase : n < 3 * sr / 100
    · rw [getD_append_lt _ _ _ (by simpa using hcase), getD_replicate_lt _ _ _ hcase]
      have hneg : ¬ (0 ≤ (n : ℤ) - ((3 * sr / 100 : ℕ) : ℤ)) := by omega
      simp only [sampleAt, if_neg hneg]
      ring
    · have hge : 3 * sr / 100 ≤ n := by omega
      rw [getD_append_ge _ _ _ (by simpa using hge)]
      have hpos : 0 ≤ (n : ℤ) - ((3 * sr / 100 : ℕ) : ℤ) := by omega
      have htn : ((n : ℤ) - ((3 * sr / 100 : ℕ) : ℤ)).toNat = n - 3 * sr / 100 := by omega
      simp only [sampleAt, if_pos hpos, htn, List.length_replicate]
      ring

/-- Witness for C4 at concrete inputs: audio `[1, 2]`, impulse `[3]` for
the server variant, and audio `[1, 2]` at `sr = 100` for the module
variant. -/
theorem c4_reverb_witness :
    (0 < ([3] : Sig).length ∧ ([3] : Sig).length ≤ ([1, 2] : Sig).length ∧
      (0 : ℕ) < ([1, 2] : Sig).length) ∧
    ((Server.add_reverb_effect [1, 2] [3]).getD 0 0
      = 9/10 * ([1, 2] : Sig).getD 0 0
        + 1/10 * ∑ j ∈ Finset.range ([1, 2] : Sig).length,
            ([1, 2] : Sig).getD j 0 *
              sampleAt [3] (((0 : ℕ) : ℤ) + (((([3] : Sig).length - 1) / 2 : ℕ) : ℤ) - (j : ℤ))) ∧
    ((AudioProcessing.add_reverb_effect [1, 2] 100).getD 0 0
      = ([1, 2] : Sig).getD 0 0
        + ∑ j ∈ Finset.range (3 * 100 / 100 + 1),
            (List.replicate (3 * 100 / 100) (0:ℚ) ++ [3/10]).getD j 0 *
              sampleAt [1, 2] (((0 : ℕ) : ℤ) - (j : ℤ))) :=
  ⟨⟨by decide, by decide, by decide⟩,
    c4_reverb_is_convolution_mix.1 [1, 2] [3] 0 (by decide) (by decide) (by decide),
    c4_reverb_is_convolution_mix.2 [1, 2] 100 0 (by decide)⟩

/-! ## The audio transformation pipeline
(`backend/audio_processing/__init__.py`)

`librosa.effects.pitch_shift`, `librosa.effects.time_stretch` and the
`scipy.signal.butter`/`filtfilt` pair are third-party numeric routines;
they enter the embedding as uninterpreted fallible functions in the
`DSP` environment, as does `np.tanh` (an uninterpreted pointwise map) and
`soundfile.write`.  Everything else in the module is local numpy code and
is embedded concretely. -/

/-- A loaded audio array: one-dimensional (mono) or two-dimensional with
two columns (stereo, shape `(n, 2)`). -/
inductive Audio where
  | mono : Sig → Audio
  | stereo : List (ℚ × ℚ) → Audio
  deriving DecidableEq

/-- `len(a.shape)` of the corresponding numpy array. -/
def Audio.ndim : Audio → ℕ
  | .mono _ => 1
  | .stereo _ => 2

/-- `librosa.util.normalize` on a one-dimensional array with the default
`norm=np.inf` and `fill=None`: divide by the peak absolute value when it
is positive, otherwise leave the data unchanged (the float `tiny`
threshold is `0` in this rational model). -/
def normalizeSig (s : Sig) : Sig :=
  if 0 < peak s then s.map (fun x => x / peak s) else s

/-- `librosa.util.normalize` on a two-dimensional `(n, 2)` array with the
default `axis=0`: each of the two columns (channels) is normalized by its
own peak. -/
def normalizeStereo (s : List (ℚ × ℚ)) : List (ℚ × ℚ) :=
  s.map (fun q =>
    ((if 0 < peak (s.map Prod.fst) then q.1 / peak (s.map Prod.fst) else q.1),
     (if 0 < peak (s.map Prod.snd) then q.2 / peak (s.map Prod.snd) else q.2)))

/-- `librosa.util.normalize(transformed)` on either shape. -/
def normalizeAudio : Audio → Audio
  | .mono s => .mono (normalizeSig s)
  | .stereo s => .stereo (normalizeStereo s)

namespace AudioProcessing

/-- Embedding of `apply_compression` (lines 116-126): samples whose
absolute value exceeds the 0.7 threshold are replaced by
`threshold + (x - threshold) / ratio` with ratio 4.  Note the source
applies this formula to the signed sample, without `np.sign`. -/
def apply_compression (audio : Sig) : Sig :=
  audio.map (fun x => if 7/10 < |x| then 7/10 + (x - 7/10) / 4 else x)

/-- Embedding of `add_subtle_distortion` (lines 129-133):
`np.tanh(audio * 1.5) / 1.5`, with `np.tanh` the uninterpreted pointwise
map `th`. -/
def add_subtle_distortion (th : ℚ → ℚ) (audio : Sig) : Sig :=
  audio.map (fun x => th (x * (3/2)) / (3/2))

/-- Embedding of `create_stereo_from_mono` (lines 136-146): the left
channel is `mono * 0.8 + delayed * 0.2`, the right channel
`mono * 0.8 + delayed * -0.2`, where `delayed` is the input padded by 20
zero samples and truncated to the input length; the function returns the
transposed `(n, 2)` array, i.e. the list of sample pairs. -/
def create_stereo_from_mono (mono : Sig) : List (ℚ × ℚ) :=
  let delayed := (List.replicate 20 (0:ℚ) ++ mono).take mono.length
  List.zipWith (fun m d => (m * (8/10) + d * (2/10), m * (8/10) + d * (-(2/10)))) mono delayed

/-- Environment of third-party primitives used by
`apply_audio_transformations`. -/
structure DSP where
  load : String → Except String (Sig × ℕ)
  pitch_shift : ℕ → ℤ → Sig → Except String Sig
  time_stretch : ℚ → Sig → Except String Sig
  filtfiltHigh : ℚ → Sig → Except String Sig
  th : ℚ → ℚ
  sf_write : String → Audio → ℕ → Except String Unit

/-- Embedding of `apply_eq_filter` (lines 87-101): an order-4 Butterworth
high-pass filtfilt at `80 / nyquist`, plus 0.3 times a high-pass filtfilt
at `10000 / nyquist` of the same input.  The two `butter`/`filtfilt`
calls are the uninterpreted `filtfiltHigh`, keyed by the normalized
cutoff. -/
def apply_eq_filter (dsp : DSP) (audio : Sig) (sr : ℕ) : Except String Sig :=
  match dsp.filtfiltHigh (80 / ((sr : ℚ) / 2)) audio with
  | .error e => .error e
  | .ok filtered =>
    match dsp.filtfiltHigh (10000 / ((sr : ℚ) / 2)) audio with
    | .error e => .error e
    | .ok highFreq => .ok (List.zipWith (fun x y => x + (3/10) * y) filtered highFreq)

/-- Trace events of the pipeline: one per `logger.info` milestone, plus
the `sf.write` of the result. -/
inductive PipeEv where
  | loaded (len sr : ℕ)
  | pitchShifted (steps : ℤ)
  | timeStretched (rate : ℚ)
  | eqFiltered
  | reverbAdded
  | compressed
  | distortionAdded
  | stereoCreated
  | saved (path : String) (data : Audio) (sr : ℕ)
  deriving DecidableEq

/-- Embedding of `apply_audio_transformations` (lines 23-84).  The random
draws `random.choice([-3, -2, -1, 1, 2, 3])` and
`random.uniform(0.9, 1.1)` are the parameters `pitchShift` and
`tempoFactor`.  The outer `try/except` is the propagation of `.error`
results to the returned `false`; the guard on
`AUDIO_PROCESSING_AVAILABLE` is the `available` flag. -/
def apply_audio_transformations (dsp : DSP) (available : Bool) (pitchShift : ℤ)
    (tempoFactor : ℚ) (audioPath outputPath : String) : Bool × List PipeEv :=
  if available then
    match dsp.load audioPath with
    | .error _ => (false, [])
    | .ok (y, sr) =>
      match dsp.pitch_shift sr pitchShift y with
      | .error _ => (false, [.loaded y.length sr])
      | .ok t1 =>
        match dsp.time_stretch tempoFactor t1 with
        | .error _ => (false, [.loaded y.length sr, .pitchShifted pitchShift])
        | .ok t2 =>
          match apply_eq_filter dsp t2 sr with
          | .error _ =>
            (false, [.loaded y.length sr, .pitchShifted pitchShift,
                     .timeStretched tempoFactor])
          | .ok t3 =>
            let t4 := add_reverb_effect t3 sr
            let t5 := apply_compression t4
            let t6 := add_subtle_distortion dsp.th t5
            let a6 := Audio.mono t6
            let a7 := if a6.ndim = 1 then Audio.stereo (create_stereo_from_mono t6) else a6
            let stereoEv : List PipeEv := if a6.ndim = 1 then [.stereoCreated] else []
            let a8 := normalizeAudio a7
            let evs := [PipeEv.loaded y.length sr, .pitchShifted pitchShift,
                        .timeStretched tempoFactor, .eqFiltered, .reverbAdded,
                        .compressed, .distortionAdded] ++ stereoEv
            match dsp.sf_write outputPath a8 sr with
            | .error _ => (false, evs)
            | .ok _ => (true, evs ++ [.saved outputPath a8 sr])
  else (false, [])

end AudioProcessing

/-- Shape of every successful pipeline run: the primitive calls that must
have succeeded, and the exact event trace. -/
lemma pipeline_success_shape
    (dsp : AudioProcessing.DSP) (pitch : ℤ) (tempo : ℚ) (audioPath outputPath : String)
    (evs : List AudioProcessing.PipeEv)
    (h : AudioProcessing.apply_audio_transformations dsp true pitch tempo audioPath outputPath
        = (true, evs)) :
    ∃ y sr t1 t2 t3,
      dsp.load audioPath = .ok (y, sr) ∧
      dsp.pitch_shift sr pitch y = .ok t1 ∧
      dsp.time_stretch tempo t1 = .ok t2 ∧
      AudioProcessing.apply_eq_filter dsp t2 sr = .ok t3 ∧
      dsp.sf_write outputPath
        (Audio.stereo (normalizeStereo (AudioProcessing.create_stereo_from_mono
          (AudioProcessing.add_subtle_distortion dsp.th
            (AudioProcessing.apply_compression
              (AudioProcessing.add_reverb_effect t3 sr)))))) sr = .ok () ∧
      evs = [.loaded y.length sr, .pitchShifted pitch, .timeStretched tempo, .eqFiltered,
             .reverbAdded, .compressed, .distortionAdded, .stereoCreated,
             .saved outputPath
               (Audio.stereo (normalizeStereo (AudioProcessing.create_stereo_from_mono
                 (AudioProcessing.add_subtle_distortion dsp.th
                   (AudioProcessing.apply_compression
                     (AudioProcessing.add_reverb_effect t3 sr)))))) sr] := by
  cases hload : dsp.load audioPath with
  | error e => simp [AudioProcessing.apply_audio_transformations, hload] at h
  | ok p =>
    obtain ⟨y, sr⟩ := p
    cases hps : dsp.pitch_shift sr pitch y with
    | error e => simp [AudioProcessing.apply_audio_transformations, hload, hps] at h
    | ok t1 =>
      cases hts : dsp.time_stretch tempo t1 with
      | error e => simp [AudioProcessing.apply_audio_transformations, hload, hps, hts] at h
      | ok t2 =>
        cases heq : AudioProcessing.apply_eq_filter dsp t2 sr with
        | error e =>
          simp [AudioProcessing.apply_audio_transformations, hload, hps, hts, heq] at h
        | ok t3 =>
          simp only [AudioProcessing.apply_audio_transformations, hload, hps, hts, heq,
            Audio.ndim, normalizeAudio, if_true] at h
          cases hw : dsp.sf_write outputPath
              (Audio.stereo (normalizeStereo (AudioProcessing.create_stereo_from_mono
                (AudioProcessing.add_subtle_distortion dsp.th
                  (AudioProcessing.apply_compression
                    (AudioProcessing.add_reverb_effect t3 sr)))))) sr with
          | error e => simp [hw] at h
          | ok u =>
            simp only [hw] at h
            rw [Prod.mk.injEq] at h
            obtain ⟨-, h2⟩ := h
            cases u
            refine ⟨y, sr, t1, t2, t3, by simp [hload], by simp [hps], by simp [hts],
              by simp [heq], by simp [hw], h2.symm.trans (by simp)⟩

/-- C1: on every run that succeeds (in particular the input loaded
successfully), the pipeline applies exactly the fixed effect chain pitch
shift, time stretch, EQ filtering, reverb, compression, distortion,
stereo widening, in this order with nothing skipped, and writes the
result (the normalized composition of the effects) to the output path. -/
theorem c1_effect_chain_fixed_order
    (dsp : AudioProcessing.DSP) (pitch : ℤ) (tempo : ℚ) (audioPath outputPath : String)
    (evs : List AudioProcessing.PipeEv)
    (h : AudioProcessing.apply_audio_transformations dsp true pitch tempo audioPath outputPath
        = (true, evs)) :
    ∃ y sr t1 t2 t3,
      dsp.load audioPath = .ok (y, sr) ∧
      dsp.pitch_shift sr pitch y = .ok t1 ∧
      dsp.time_stretch tempo t1 = .ok t2 ∧
      AudioProcessing.apply_eq_filter dsp t2 sr = .ok t3 ∧
      evs = [.loaded y.length sr, .pitchShifted pitch, .timeStretched tempo, .eqFiltered,
             .reverbAdded, .compressed, .distortionAdded, .stereoCreated,
             .saved outputPath
               (Audio.stereo (normalizeStereo (AudioProcessing.create_stereo_from_mono
                 (AudioProcessing.add_subtle_distortion dsp.th
                   (AudioProcessing.apply_compression
                     (AudioProcessing.add_reverb_effect t3 sr)))))) sr] := by
  obtain ⟨y, sr, t1, t2, t3, h1, h2, h3, h4, -, h6⟩ :=
    pipeline_success_shape dsp pitch tempo audioPath outputPath evs h
  exact ⟨y, sr, t1, t2, t3, h1, h2, h3, h4, h6⟩

/-- A fully succeeding primitive environment, used to witness the
pipeline theorems at a concrete input. -/
@[reducible] def dspAllOk : AudioProcessing.DSP where
  load := fun _ => .ok ([1], 4)
  pitch_shift := fun _ _ s => .ok s
  time_stretch := fun _ s => .ok s
  filtfiltHigh := fun _ s => .ok s
  th := fun x => x
  sf_write := fun _ _ _ => .ok ()

/-- The trace produced by the pipeline on `dspAllOk`. -/
def c1WitnessEvs : List AudioProcessing.PipeEv :=
  [.loaded 1 4, .pitchShifted 1, .timeStretched 1, .eqFiltered, .reverbAdded, .compressed,
   .distortionAdded, .stereoCreated, .saved "out.wav" (Audio.stereo [(1, 1)]) 4]

lemma c1_run_eq : AudioProcessing.apply_eq_filter dspAllOk [1] 4 = .ok [13/10] := by
  norm_num [AudioProcessing.apply_eq_filter, dspAllOk]

lemma c1_run_reverb : AudioProcessing.add_reverb_effect [13/10] 4 = [169/100] := by
  norm_num [AudioProcessing.add_reverb_effect]

lemma c1_run_comp : AudioProcessing.apply_compression [169/100] = [379/400] := by
  simp only [AudioProcessing.apply_compression, List.map]
  rw [abs_of_pos (show (0:ℚ) < 169/100 by norm_num),
    if_pos (show (7:ℚ)/10 < 169/100 by norm_num)]
  norm_num

lemma c1_run_dist :
    AudioProcessing.add_subtle_distortion (fun x => x) [379/400] = [379/400] := by
  norm_num [AudioProcessing.add_subtle_distortion]

lemma c1_run_stereo :
    AudioProcessing.create_stereo_from_mono [379/400] = [(379/500, 379/500)] := by
  have htake : (List.replicate 20 (0:ℚ) ++ [379/400]).take ([(379:ℚ)/400].length) = [0] := rfl
  simp only [AudioProcessing.create_stereo_from_mono, htake]
  norm_num

lemma c1_run_norm : normalizeStereo [((379:ℚ)/500, (379:ℚ)/500)] = [(1, 1)] := by
  have hp : peak [(379:ℚ)/500] = 379/500 := by
    simp only [peak, List.foldr]
    rw [abs_of_pos (show (0:ℚ) < 379/500 by norm_num)]
    exact max_eq_left (by norm_num)
  simp only [normalizeStereo, List.map, hp]
  rw [if_pos (show (0:ℚ) < 379/500 by norm_num)]
  norm_num

lemma c1_witness_run :
    AudioProcessing.apply_audio_transformations dspAllOk true 1 1 "in.wav" "out.wav"
      = (true, c1WitnessEvs) := by
  have hload : dspAllOk.load "in.wav" = .ok ([1], 4) := rfl
  have hps : dspAllOk.pitch_shift 4 1 [1] = .ok [1] := rfl
  have hts : dspAllOk.time_stretch 1 [1] = .ok [1] := rfl
  have hw : dspAllOk.sf_write "out.wav" (Audio.stereo [(1, 1)]) 4 = .ok () := rfl
  simp [AudioProcessing.apply_audio_transformations, hload, hps, hts, c1_run_eq,
    c1_run_reverb, c1_run_comp, c1_run_dist, c1_run_stereo, c1_run_norm, hw,
    Audio.ndim, normalizeAudio, c1WitnessEvs]

/-- Witness for C1: the concrete all-succeeding run satisfies the
hypothesis, and the theorem instantiates at it. -/
theorem c1_effect_chain_witness :
    AudioProcessing.apply_audio_transformations dspAllOk true 1 1 "in.wav" "out.wav"
        = (true, c1WitnessEvs) ∧
    (∃ y sr t1 t2 t3,
      dspAllOk.load "in.wav" = .ok (y, sr) ∧
      dspAllOk.pitch_shift sr 1 y = .ok t1 ∧
      dspAllOk.time_stretch 1 t1 = .ok t2 ∧
      AudioProcessing.apply_eq_filter dspAllOk t2 sr = .ok t3 ∧
      c1WitnessEvs = [.loaded y.length sr, .pitchShifted 1, .timeStretched 1, .eqFiltered,
             .reverbAdded, .compressed, .distortionAdded, .stereoCreated,
             .saved "out.wav"
               (Audio.stereo (normalizeStereo (AudioProcessing.create_stereo_from_mono
                 (AudioProcessing.add_subtle_distortion dspAllOk.th
                   (AudioProcessing.apply_compression
                     (AudioProcessing.add_reverb_effect t3 sr)))))) sr]) :=
  ⟨c1_witness_run, c1_effect_chain_fixed_order dspAllOk 1 1 "in.wav" "out.wav" c1WitnessEvs
    c1_witness_run⟩

/-! ## Peak normalization of the written output (C10) -/

/-- If one channel of the stereo widening is identically zero, the mono
input was identically zero: the channel value at `n` is
`t[n] * 0.8 + t[n - 20] * c` (with zero padding), so zeroes propagate by
strong induction on the sample index. -/
lemma stereo_channel_silent (t : Sig) (c : ℚ)
    (hall : ∀ n, n < t.length →
      (List.zipWith (fun m d => m * (8/10) + d * c) t
        ((List.replicate 20 (0:ℚ) ++ t).take t.length)).getD n 0 = 0) :
    ∀ n, n < t.length → t.getD n 0 = 0 := by
  intro n
  induction n using Nat.strong_induction_on with
  | _ n ih =>
    intro hn
    have hlen : n < ((List.replicate 20 (0:ℚ) ++ t).take t.length).length := by
      simp only [List.length_take, List.length_append, List.length_replicate]
      omega
    have hz := hall n hn
    rw [getD_zipWith _ _ _ _ hn hlen, getD_take _ _ _ hn] at hz
    by_cases hc : n < 20
    · rw [getD_append_lt _ _ _ (by simpa using hc), getD_replicate_lt _ _ _ hc,
        zero_mul, add_zero] at hz
      exact (mul_eq_zero.mp hz).resolve_right (by norm_num)
    · have hge : 20 ≤ n := by omega
      rw [getD_append_ge _ _ _ (by simpa using hge)] at hz
      simp only [List.length_replicate] at hz
      have hih := ih (n - 20) (by omega) (by omega)
      rw [hih, zero_mul, add_zero] at hz
      exact (mul_eq_zero.mp hz).resolve_right (by norm_num)

lemma stereo_fst_eq (t : Sig) :
    (AudioProcessing.create_stereo_from_mono t).map Prod.fst
      = List.zipWith (fun m d => m * (8/10) + d * (2/10)) t
          ((List.replicate 20 (0:ℚ) ++ t).take t.length) := by
  simp [AudioProcessing.create_stereo_from_mono, List.map_zipWith]

lemma stereo_snd_eq (t : Sig) :
    (AudioProcessing.create_stereo_from_mono t).map Prod.snd
      = List.zipWith (fun m d => m * (8/10) + d * (-(2/10))) t
          ((List.replicate 20 (0:ℚ) ++ t).take t.length) := by
  simp [AudioProcessing.create_stereo_from_mono, List.map_zipWith]

lemma nonSilent_mix (t : Sig) (c : ℚ) (h : nonSilent t) :
    nonSilent (List.zipWith (fun m d => m * (8/10) + d * c) t
      ((List.replicate 20 (0:ℚ) ++ t).take t.length)) := by
  by_contra hns
  obtain ⟨n, hn, hx⟩ := h
  apply hx
  have hlen : (List.zipWith (fun m d => m * (8/10) + d * c) t
      ((List.replicate 20 (0:ℚ) ++ t).take t.length)).length = t.length := by
    simp only [List.length_zipWith, List.length_take, List.length_append,
      List.length_replicate]
    omega
  have hall : ∀ m, m < t.length →
      (List.zipWith (fun m d => m * (8/10) + d * c) t
        ((List.replicate 20 (0:ℚ) ++ t).take t.length)).getD m 0 = 0 := by
    intro m hm
    by_contra hzz
    exact hns ⟨m, by omega, hzz⟩
  exact stereo_channel_silent t c hall n hn

/-- Normalizing a non-silent channel yields peak exactly 1. -/
lemma peak_norm_channel (l : Sig) (h : nonSilent l) :
    peak (l.map (fun x => if 0 < peak l then x / peak l else x)) = 1 := by
  have hp := peak_pos_of_nonSilent l h
  have hfn : (fun x => if 0 < peak l then x / peak l else x) = (fun x : ℚ => x / peak l) := by
    funext x
    rw [if_pos hp]
  rw [hfn, peak_map_div _ _ hp, div_self (ne_of_gt hp)]

lemma normStereo_fst (s : List (ℚ × ℚ)) :
    (normalizeStereo s).map Prod.fst
      = (s.map Prod.fst).map
          (fun x => if 0 < peak (s.map Prod.fst) then x / peak (s.map Prod.fst) else x) := by
  simp [normalizeStereo, List.map_map]

lemma normStereo_snd (s : List (ℚ × ℚ)) :
    (normalizeStereo s).map Prod.snd
      = (s.map Prod.snd).map
          (fun x => if 0 < peak (s.map Prod.snd) then x / peak (s.map Prod.snd) else x) := by
  simp [normalizeStereo, List.map_map]

/-- C10: on every successful run, the audio written to the output path is
the per-channel normalization of the stereo-widened signal, and whenever
the signal entering the stereo/normalize stage (the effect-chain output)
is non-silent, its maximum absolute sample value is exactly 1 --
independently of the pitch-shift and tempo parameters, which are
universally quantified here. -/
theorem c10_written_output_peak_normalized
    (dsp : AudioProcessing.DSP) (pitch : ℤ) (tempo : ℚ) (audioPath outputPath : String)
    (evs : List AudioProcessing.PipeEv)
    (h : AudioProcessing.apply_audio_transformations dsp true pitch tempo audioPath outputPath
        = (true, evs)) :
    ∃ t6 sr,
      AudioProcessing.PipeEv.saved outputPath
        (Audio.stereo (normalizeStereo (AudioProcessing.create_stereo_from_mono t6))) sr ∈ evs ∧
      (nonSilent t6 →
        max (peak ((normalizeStereo (AudioProcessing.create_stereo_from_mono t6)).map Prod.fst))
            (peak ((normalizeStereo (AudioProcessing.create_stereo_from_mono t6)).map Prod.snd))
          = 1) := by
  obtain ⟨y, sr, t1, t2, t3, -, -, -, -, -, hevs⟩ :=
    pipeline_success_shape dsp pitch tempo audioPath outputPath evs h
  refine ⟨AudioProcessing.add_subtle_distortion dsp.th
      (AudioProcessing.apply_compression (AudioProcessing.add_reverb_effect t3 sr)), sr, ?_, ?_⟩
  · rw [hevs]
    simp
  · intro hns
    have hl : nonSilent ((AudioProcessing.create_stereo_from_mono
        (AudioProcessing.add_subtle_distortion dsp.th
          (AudioProcessing.apply_compression
            (AudioProcessing.add_reverb_effect t3 sr)))).map Prod.fst) := by
      rw [stereo_fst_eq]
      exact nonSilent_mix _ _ hns
    have hr : nonSilent ((AudioProcessing.create_stereo_from_mono
        (AudioProcessing.add_subtle_distortion dsp.th
          (AudioProcessing.apply_compression
            (AudioProcessing.add_reverb_effect t3 sr)))).map Prod.snd) := by
      rw [stereo_snd_eq]
      exact nonSilent_mix _ _ hns
    rw [normStereo_fst, normStereo_snd, peak_norm_channel _ hl, peak_norm_channel _ hr]
    exact max_self 1

/-- Witness for C10: the concrete all-succeeding run. -/
theorem c10_peak_witness :
    AudioProcessing.apply_audio_transformations dspAllOk true 1 1 "in.wav" "out.wav"
        = (true, c1WitnessEvs) ∧
    (∃ t6 sr,
      AudioProcessing.PipeEv.saved "out.wav"
        (Audio.stereo (normalizeStereo (AudioProcessing.create_stereo_from_mono t6))) sr
          ∈ c1WitnessEvs ∧
      (nonSilent t6 →
        max (peak ((normalizeStereo (AudioProcessing.create_stereo_from_mono t6)).map Prod.fst))
            (peak ((normalizeStereo (AudioProcessing.create_stereo_from_mono t6)).map Prod.snd))
          = 1)) :=
  ⟨c1_witness_run,
    c10_written_output_peak_normalized dspAllOk 1 1 "in.wav" "out.wav" c1WitnessEvs
      c1_witness_run⟩

/-! ## Frequency-based stems
(`backend/audio_processing/stem_separation.py`, mirrored in `server.py`)

For the stem dictionary only the call structure matters, so signals are
symbolic expressions whose constructors are the two distinct third-party
transforms the module applies: `applyFrequencyFilter` is
`apply_frequency_filter` (a scipy `butter`+`filtfilt` low/high/band-pass
at fixed cutoffs, arguments in source order: audio, sr, low, high), and
`extractHarmonicComponent` is `extract_harmonic_component`
(`librosa.effects.harmonic` / `hpss`, a median-filter
harmonic-percussive separation on the spectrogram, not a fixed-cutoff
band filter). -/

inductive SigExpr where
  | input : SigExpr
  | applyFrequencyFilter : SigExpr → ℕ → ℕ → ℕ → SigExpr
  | extractHarmonicComponent : SigExpr → SigExpr
  deriving DecidableEq

/-- Whether a symbolic stem was produced by the fixed-cutoff frequency
filter. -/
def SigExpr.isFrequencyFiltered : SigExpr → Bool
  | .applyFrequencyFilter _ _ _ _ => true
  | _ => false

/-- Embedding of `create_frequency_based_stems` (stem_separation.py lines
112-139; identical in server.py lines 311-338): the insertion-ordered
stem dictionary.  `sr // 2` is natural division. -/
def create_frequency_based_stems (audio : SigExpr) (sr : ℕ) : List (String × SigExpr) :=
  [("bass", .applyFrequencyFilter audio sr 0 200),
   ("kick", .applyFrequencyFilter audio sr 0 80),
   ("melody", .applyFrequencyFilter audio sr 200 2000),
   ("percussion", .applyFrequencyFilter audio sr 2000 (sr / 2)),
   ("harmony", .extractHarmonicComponent audio)]

/-- C2 counterexample: at the sample rate actually used (22050), the
harmony stem is produced by `extract_harmonic_component`
(harmonic-percussive separation), not by the fixed-cutoff frequency
filter, refuting the claim that every stem is obtained by frequency
filtering. -/
theorem c2_harmony_not_filtered_cex :
    (create_frequency_based_stems SigExpr.input 22050).lookup "harmony"
        = some (SigExpr.extractHarmonicComponent SigExpr.input) ∧
    ((create_frequency_based_stems SigExpr.input 22050).lookup "harmony").map
        SigExpr.isFrequencyFiltered = some false :=
  ⟨rfl, rfl⟩

/-- C2 amended: for every input and sample rate,
`create_frequency_based_stems` returns exactly five stems; bass, kick,
melody and percussion are fixed-cutoff frequency filterings of the input
at the stated bands (0-200, 0-80, 200-2000 and 2000-to-`sr // 2` Hz),
while harmony is obtained by harmonic-percussive extraction rather than
frequency filtering. -/
theorem c2_stems_structure (audio : SigExpr) (sr : ℕ) :
    (create_frequency_based_stems audio sr).length = 5 ∧
    (create_frequency_based_stems audio sr).map Prod.fst
      = ["bass", "kick", "melody", "percussion", "harmony"] ∧
    (create_frequency_based_stems audio sr).lookup "bass"
      = some (.applyFrequencyFilter audio sr 0 200) ∧
    (create_frequency_based_stems audio sr).lookup "kick"
      = some (.applyFrequencyFilter audio sr 0 80) ∧
    (create_frequency_based_stems audio sr).lookup "melody"
      = some (.applyFrequencyFilter audio sr 200 2000) ∧
    (create_frequency_based_stems audio sr).lookup "percussion"
      = some (.applyFrequencyFilter audio sr 2000 (sr / 2)) ∧
    (create_frequency_based_stems audio sr).lookup "harmony"
      = some (.extractHarmonicComponent audio) ∧
    ((create_frequency_based_stems audio sr).lookup "harmony").map
        SigExpr.isFrequencyFiltered = some false :=
  ⟨rfl, rfl, rfl, rfl, rfl, rfl, rfl, rfl⟩

namespace StemSep

/-- Uninterpreted handle for a `pretty_midi` object returned by
`basic_pitch.inference.predict`. -/
abbrev MidiH := ℕ

/-- Uninterpreted handle for a `music21` stream. -/
abbrev ScoreH := ℕ

/-- Environment of third-party calls made by
`extract_stems_and_convert_to_midi` and its helpers, keyed the way the
source keys them (by path). -/
structure Env where
  mkdir : Except String Unit
  load : String → Except String Unit
  predict : String → Except String MidiH
  midiWrite : MidiH → String → Except String Unit
  sfWrite : String → SigExpr → ℕ → Except String Unit
  parse : String → Except String ScoreH
  enhance : ScoreH → ScoreH
  scoreWrite : ScoreH → String → Except String Unit
  infoWrite : Except String Unit

/-- File-system and logging events, in program order.  `warnFailed`
models the `logger.warning` emitted by the per-stem `except` block. -/
inductive Ev where
  | mkdirEv
  | predictCall (path : String)
  | fsWrite (path : String)
  | fsDelete (path : String)
  | warnFailed (stem : String)
  deriving DecidableEq

/-- Python `str` has no attribute `name`; `convert_midi_to_musicxml`
returns `musicxml_path.name` (already a string), so the caller's
`musicxml_path.name` raises `AttributeError`. -/
def strNameAttr (_s : String) : Except String String :=
  .error "AttributeError: str object has no attribute name"

structure ConvOut where
  result : Option String
  fs : List String
  evs : List Ev
  deriving DecidableEq

structure TryOut where
  fs : List String
  evs : List Ev
  mids : List String
  xmls : List String
  raised : Bool
  deriving DecidableEq

structure LoopOut where
  fs : List String
  evs : List Ev
  mids : List String
  xmls : List String
  abort : Option String
  deriving DecidableEq

/-- Embedding of `convert_midi_to_musicxml` (stem_separation.py lines
180-204): if the MIDI file exists, parse it, enhance the score, write
`{name}.xml` and return its name string; every internal failure is
caught and `None` returned. -/
def convert_midi_to_musicxml (env : Env) (fs : List String) (midiName name : String) :
    ConvOut :=
  if midiName ∈ fs then
    match env.parse midiName with
    | .error _ => ⟨none, fs, []⟩
    | .ok sc =>
      match env.scoreWrite (env.enhance sc) (name ++ ".xml") with
      | .error _ => ⟨none, fs, []⟩
      | .ok _ => ⟨some (name ++ ".xml"), (name ++ ".xml") :: fs, [Ev.fsWrite (name ++ ".xml")]⟩
  else ⟨none, fs, []⟩

/-- The per-stem `try` block (lines 69-87): predict on the temp wav,
write and record `{name}.mid`, convert to MusicXML, and append
`musicxml_path.name` -- which raises `AttributeError` since the value is
already a string, so the `xmls` append is dead code and `raised` is true
whenever the conversion succeeded. -/
def stemTryBody (env : Env) (name : String) (fs : List String) : TryOut :=
  let temp := "temp_" ++ name ++ ".wav"
  match env.predict temp with
  | .error _ => ⟨fs, [Ev.predictCall temp], [], [], true⟩
  | .ok midi =>
    match env.midiWrite midi (name ++ ".mid") with
    | .error _ => ⟨fs, [Ev.predictCall temp], [], [], true⟩
    | .ok _ =>
      let c := convert_midi_to_musicxml env ((name ++ ".mid") :: fs) (name ++ ".mid") name
      match c.result with
      | none =>
        ⟨c.fs, Ev.predictCall temp :: Ev.fsWrite (name ++ ".mid") :: c.evs,
          [name ++ ".mid"], [], false⟩
      | some s =>
        match strNameAttr s with
        | .error _ =>
          ⟨c.fs, Ev.predictCall temp :: Ev.fsWrite (name ++ ".mid") :: c.evs,
            [name ++ ".mid"], [], true⟩
        | .ok nm =>
          ⟨c.fs, Ev.predictCall temp :: Ev.fsWrite (name ++ ".mid") :: c.evs,
            [name ++ ".mid"], [nm], false⟩

/-- One loop iteration after the temp wav was written (lines 65-91): the
`try` body, the `except` warning, and the `finally` deletion of the temp
file when it exists. -/
def stemBody (env : Env) (name : String) (fs0 : List String) : TryOut :=
  let temp := "temp_" ++ name ++ ".wav"
  let t := stemTryBody env name (temp :: fs0)
  let warn : List Ev := if t.raised then [Ev.warnFailed name] else []
  if temp ∈ t.fs then
    ⟨t.fs.erase temp, Ev.fsWrite temp :: (t.evs ++ warn ++ [Ev.fsDelete temp]),
      t.mids, t.xmls, t.raised⟩
  else
    ⟨t.fs, Ev.fsWrite temp :: (t.evs ++ warn), t.mids, t.xmls, t.raised⟩

/-- The loop over the stem dictionary (lines 62-91).  `sf.write` of the
temp wav is outside the `try`, so its failure aborts the whole
extraction. -/
def runStems (env : Env) : List (String × SigExpr) → List String → LoopOut
  | [], fs => ⟨fs, [], [], [], none⟩
  | (name, e) :: rest, fs =>
    match env.sfWrite ("temp_" ++ name ++ ".wav") e 22050 with
    | .error msg => ⟨fs, [], [], [], some msg⟩
    | .ok _ =>
      let b := stemBody env name fs
      let r := runStems env rest b.fs
      ⟨r.fs, b.evs ++ r.evs, b.mids ++ r.mids, b.xmls ++ r.xmls, r.abort⟩

/-- The dictionary returned by `extract_stems_and_convert_to_midi`, with
absent keys as `none`/`[]`. -/
structure ExtractResult where
  success : Bool
  error : Option String
  mainMidi : Option String
  stemMidis : List String
  musicxmlFiles : List String
  stemsCreated : List String
  deriving DecidableEq

def failResult (e : String) : ExtractResult :=
  { success := false, error := some e, mainMidi := none, stemMidis := [],
    musicxmlFiles := [], stemsCreated := [] }

/-- Embedding of `extract_stems_and_convert_to_midi` (stem_separation.py
lines 22-109): load at 22050 Hz, predict and save the full-mix MIDI,
build the frequency stems, loop over them, write the info file (whose
own failure is caught internally), and return the result dictionary;
every top-level failure is caught and becomes `success = False` with the
error message. -/
def extract_stems_and_convert_to_midi (env : Env) (available : Bool) (audioPath : String) :
    ExtractResult × List Ev :=
  if available then
    match env.mkdir with
    | .error e => (failResult e, [])
    | .ok _ =>
      match env.load audioPath with
      | .error e => (failResult e, [Ev.mkdirEv])
      | .ok _ =>
        match env.predict audioPath with
        | .error e => (failResult e, [Ev.mkdirEv, Ev.predictCall audioPath])
        | .ok mainMidi =>
          match env.midiWrite mainMidi "full_song.mid" with
          | .error e => (failResult e, [Ev.mkdirEv, Ev.predictCall audioPath])
          | .ok _ =>
            let stems := create_frequency_based_stems SigExpr.input 22050
            let r := runStems env stems ["full_song.mid"]
            let preEvs := [Ev.mkdirEv, Ev.predictCall audioPath, Ev.fsWrite "full_song.mid"]
            match r.abort with
            | some e => (failResult e, preEvs ++ r.evs)
            | none =>
              let infoEvs : List Ev :=
                match env.infoWrite with
                | .ok _ => [Ev.fsWrite "transformation_info.txt"]
                | .error _ => []
              ({ success := true, error := none, mainMidi := some "full_song.mid",
                 stemMidis := r.mids, musicxmlFiles := r.xmls,
                 stemsCreated := stems.map Prod.fst }, preEvs ++ r.evs ++ infoEvs)
  else
    ({ success := false, error := some "Audio processing dependencies not installed",
       mainMidi := none, stemMidis := [], musicxmlFiles := [], stemsCreated := [] }, [])

end StemSep

/-- The `xmls` delta of the per-stem `try` body is always empty: the
append is guarded by `strNameAttr`, which always raises. -/
lemma stemTryBody_xmls (env : StemSep.Env) (name : String) (fs : List String) :
    (StemSep.stemTryBody env name fs).xmls = [] := by
  simp only [StemSep.stemTryBody]
  cases hp : env.predict ("temp_" ++ name ++ ".wav") with
  | error e => simp [hp]
  | ok m =>
    cases hw : env.midiWrite m (name ++ ".mid") with
    | error e => simp [hp, hw]
    | ok u =>
      cases hc : (StemSep.convert_midi_to_musicxml env ((name ++ ".mid") :: fs)
          (name ++ ".mid") name).result with
      | none => simp [hp, hw, hc]
      | some s => simp [hp, hw, hc, StemSep.strNameAttr]

lemma stemBody_xmls (env : StemSep.Env) (name : String) (fs0 : List String) :
    (StemSep.stemBody env name fs0).xmls = [] := by
  simp only [StemSep.stemBody]
  split <;> simp [stemTryBody_xmls]

lemma runStems_xmls (env : StemSep.Env) (stems : List (String × SigExpr)) (fs : List String) :
    (StemSep.runStems env stems fs).xmls = [] := by
  induction stems generalizing fs with
  | nil => rfl
  | cons s rest ih =>
    obtain ⟨name, e⟩ := s
    simp only [StemSep.runStems]
    cases hsw : env.sfWrite ("temp_" ++ name ++ ".wav") e 22050 with
    | error msg => simp [hsw]
    | ok u => simp [hsw, stemBody_xmls, ih]

/-- A stem-separation environment in which every call succeeds. -/
@[reducible] def envAllOk : StemSep.Env where
  mkdir := .ok ()
  load := fun _ => .ok ()
  predict := fun _ => .ok 0
  midiWrite := fun _ _ => .ok ()
  sfWrite := fun _ _ _ => .ok ()
  parse := fun _ => .ok 0
  enhance := fun s => s
  scoreWrite := fun _ _ => .ok ()
  infoWrite := .ok ()

/-- C3: contrary to the claim, the returned `musicxml_files` list is
empty on EVERY run of the module version: the caller appends
`musicxml_path.name`, but `convert_midi_to_musicxml` already returned
the name string, so the attribute access raises and the append never
executes -- even though (second and third conjuncts, at an
all-succeeding environment) the stem MusicXML file is actually written
to disk and the run reports success. -/
theorem c3_musicxml_files_never_returned :
    (∀ (env : StemSep.Env) (available : Bool) (audioPath : String),
      (StemSep.extract_stems_and_convert_to_midi env available audioPath).1.musicxmlFiles = [])
    ∧ StemSep.Ev.fsWrite "bass.xml"
        ∈ (StemSep.extract_stems_and_convert_to_midi envAllOk true "song.wav").2
    ∧ (StemSep.extract_stems_and_convert_to_midi envAllOk true "song.wav").1.success = true := by
  refine ⟨?_, by decide, by decide⟩
  intro env available ap
  cases available with
  | false => rfl
  | true =>
    simp only [StemSep.extract_stems_and_convert_to_midi]
    cases hmk : env.mkdir with
    | error e => simp [hmk, StemSep.failResult]
    | ok u1 =>
      cases hld : env.load ap with
      | error e => simp [hmk, hld, StemSep.failResult]
      | ok u2 =>
        cases hpm : env.predict ap with
        | error e => simp [hmk, hld, hpm, StemSep.failResult]
        | ok m =>
          cases hwm : env.midiWrite m "full_song.mid" with
          | error e => simp [hmk, hld, hpm, hwm, StemSep.failResult]
          | ok u3 =>
            cases hab : (StemSep.runStems env
                (create_frequency_based_stems SigExpr.input 22050) ["full_song.mid"]).abort with
            | some e => simp [hmk, hld, hpm, hwm, hab, StemSep.failResult]
            | none => simp [hmk, hld, hpm, hwm, hab, runStems_xmls]

/-! ## Per-stem isolation and temp-file cleanup (C9) -/

/-- The five temporary wav files written by the stem loop. -/
def tempNames : List String :=
  ["temp_bass.wav", "temp_kick.wav", "temp_melody.wav", "temp_percussion.wav",
   "temp_harmony.wav"]

/-- Events that touch a temporary stem wav file. -/
def isTempEv : StemSep.Ev → Bool
  | .fsWrite p => tempNames.contains p
  | .fsDelete p => tempNames.contains p
  | _ => false

lemma convert_evs_cases (env : StemSep.Env) (fs : List String) (midiName name : String) :
    (StemSep.convert_midi_to_musicxml env fs midiName name).evs = [] ∨
    (StemSep.convert_midi_to_musicxml env fs midiName name).evs
      = [StemSep.Ev.fsWrite (name ++ ".xml")] := by
  simp only [StemSep.convert_midi_to_musicxml]
  split
  · cases hp : env.parse midiName with
    | error e => simp [hp]
    | ok sc =>
      cases hw : env.scoreWrite (env.enhance sc) (name ++ ".xml") with
      | error e => simp [hp, hw]
      | ok u => simp [hp, hw]
  · simp

lemma convert_fs_mem (env : StemSep.Env) (fs : List String) (midiName name p : String)
    (h : p ∈ fs) : p ∈ (StemSep.convert_midi_to_musicxml env fs midiName name).fs := by
  simp only [StemSep.convert_midi_to_musicxml]
  split
  · cases hp : env.parse midiName with
    | error e => simpa [hp]
    | ok sc =>
      cases hw : env.scoreWrite (env.enhance sc) (name ++ ".xml") with
      | error e => simpa [hp, hw]
      | ok u => simp [hp, hw, h]
  · simpa

lemma stemTryBody_fs_mem (env : StemSep.Env) (name : String) (fs : List String) (p : String)
    (h : p ∈ fs) : p ∈ (StemSep.stemTryBody env name fs).fs := by
  simp only [StemSep.stemTryBody]
  cases hp : env.predict ("temp_" ++ name ++ ".wav") with
  | error e => simpa [hp]
  | ok m =>
    cases hw : env.midiWrite m (name ++ ".mid") with
    | error e => simpa [hp, hw]
    | ok u =>
      cases hc : (StemSep.convert_midi_to_musicxml env ((name ++ ".mid") :: fs)
          (name ++ ".mid") name).result with
      | none =>
        simp only [hp, hw, hc]
        exact convert_fs_mem env _ _ _ p (List.mem_cons_of_mem _ h)
      | some s =>
        simp only [hp, hw, hc, StemSep.strNameAttr]
        exact convert_fs_mem env _ _ _ p (List.mem_cons_of_mem _ h)

lemma convert_evs_filter (env : StemSep.Env) (fs : List String) (midiName name : String)
    (h3 : (name ++ ".xml") ∉ tempNames) :
    ((StemSep.convert_midi_to_musicxml env fs midiName name).evs.filter isTempEv) = [] := by
  rcases convert_evs_cases env fs midiName name with hc | hc <;> simp [hc, isTempEv, h3]

lemma stemTryBody_evs_filter (env : StemSep.Env) (name : String) (fs : List String)
    (h2 : (name ++ ".mid") ∉ tempNames)
    (h3 : (name ++ ".xml") ∉ tempNames) :
    ((StemSep.stemTryBody env name fs).evs.filter isTempEv) = [] := by
  simp only [StemSep.stemTryBody]
  cases hp : env.predict ("temp_" ++ name ++ ".wav") with
  | error e => simp [hp, isTempEv]
  | ok m =>
    cases hw : env.midiWrite m (name ++ ".mid") with
    | error e => simp [hp, hw, isTempEv]
    | ok u =>
      cases hc : (StemSep.convert_midi_to_musicxml env ((name ++ ".mid") :: fs)
          (name ++ ".mid") name).result with
      | none =>
        simp [hp, hw, hc, isTempEv, h2, convert_evs_filter env _ _ _ h3]
      | some s =>
        simp [hp, hw, hc, StemSep.strNameAttr, isTempEv, h2,
          convert_evs_filter env _ _ _ h3]

lemma stemBody_trace (env : StemSep.Env) (name : String) (fs0 : List String)
    (h1 : ("temp_" ++ name ++ ".wav") ∈ tempNames)
    (h2 : (name ++ ".mid") ∉ tempNames)
    (h3 : (name ++ ".xml") ∉ tempNames) :
    ((StemSep.stemBody env name fs0).evs.filter isTempEv)
      = [StemSep.Ev.fsWrite ("temp_" ++ name ++ ".wav"),
         StemSep.Ev.fsDelete ("temp_" ++ name ++ ".wav")] := by
  have hmem : ("temp_" ++ name ++ ".wav") ∈ (StemSep.stemTryBody env name
      (("temp_" ++ name ++ ".wav") :: fs0)).fs :=
    stemTryBody_fs_mem env name _ _ (List.mem_cons_self _ _)
  simp only [StemSep.stemBody, if_pos hmem]
  cases ht : (StemSep.stemTryBody env name (("temp_" ++ name ++ ".wav") :: fs0)).raised <;>
    simp [ht, List.filter_append, isTempEv, h1,
      stemTryBody_evs_filter env name _ h2 h3]

lemma runStems_abort_none (env : StemSep.Env)
    (hsf : ∀ p e s, env.sfWrite p e s = .ok ())
    (stems : List (String × SigExpr)) (fs : List String) :
    (StemSep.runStems env stems fs).abort = none := by
  induction stems generalizing fs with
  | nil => rfl
  | cons s rest ih =>
    obtain ⟨name, e⟩ := s
    simp only [StemSep.runStems, hsf]
    exact ih _

lemma runStems_concrete_trace (env : StemSep.Env)
    (hsf : ∀ p e s, env.sfWrite p e s = .ok ()) (fs : List String) :
    ((StemSep.runStems env (create_frequency_based_stems SigExpr.input 22050) fs).evs.filter
        isTempEv)
      = [StemSep.Ev.fsWrite "temp_bass.wav", StemSep.Ev.fsDelete "temp_bass.wav",
         StemSep.Ev.fsWrite "temp_kick.wav", StemSep.Ev.fsDelete "temp_kick.wav",
         StemSep.Ev.fsWrite "temp_melody.wav", StemSep.Ev.fsDelete "temp_melody.wav",
         StemSep.Ev.fsWrite "temp_percussion.wav", StemSep.Ev.fsDelete "temp_percussion.wav",
         StemSep.Ev.fsWrite "temp_harmony.wav", StemSep.Ev.fsDelete "temp_harmony.wav"] := by
  have hb : ∀ fs0, ((StemSep.stemBody env "bass" fs0).evs.filter isTempEv)
      = [StemSep.Ev.fsWrite "temp_bass.wav", StemSep.Ev.fsDelete "temp_bass.wav"] :=
    fun fs0 => stemBody_trace env "bass" fs0 (by decide) (by decide) (by decide)
  have hk : ∀ fs0, ((StemSep.stemBody env "kick" fs0).evs.filter isTempEv)
      = [StemSep.Ev.fsWrite "temp_kick.wav", StemSep.Ev.fsDelete "temp_kick.wav"] :=
    fun fs0 => stemBody_trace env "kick" fs0 (by decide) (by decide) (by decide)
  have hm : ∀ fs0, ((StemSep.stemBody env "melody" fs0).evs.filter isTempEv)
      = [StemSep.Ev.fsWrite "temp_melody.wav", StemSep.Ev.fsDelete "temp_melody.wav"] :=
    fun fs0 => stemBody_trace env "melody" fs0 (by decide) (by decide) (by decide)
  have hp : ∀ fs0, ((StemSep.stemBody env "percussion" fs0).evs.filter isTempEv)
      = [StemSep.Ev.fsWrite "temp_percussion.wav", StemSep.Ev.fsDelete "temp_percussion.wav"] :=
    fun fs0 => stemBody_trace env "percussion" fs0 (by decide) (by decide) (by decide)
  have hh : ∀ fs0, ((StemSep.stemBody env "harmony" fs0).evs.filter isTempEv)
      = [StemSep.Ev.fsWrite "temp_harmony.wav", StemSep.Ev.fsDelete "temp_harmony.wav"] :=
    fun fs0 => stemBody_trace env "harmony" fs0 (by decide) (by decide) (by decide)
  simp only [create_frequency_based_stems, StemSep.runStems, hsf]
  simp [List.filter_append, hb, hk, hm, hp, hh]

lemma stemBody_early_fail (env : StemSep.Env) (name : String) (fs0 : List String)
    (h : (∃ e2, env.predict ("temp_" ++ name ++ ".wav") = .error e2) ∨
         (∃ mm e2, env.predict ("temp_" ++ name ++ ".wav") = .ok mm ∧
            env.midiWrite mm (name ++ ".mid") = .error e2)) :
    (StemSep.stemBody env name fs0).mids = [] ∧ (StemSep.stemBody env name fs0).xmls = [] := by
  rcases h with ⟨e2, hp⟩ | ⟨mm, e2, hp, hw⟩
  · have ht : StemSep.stemTryBody env name (("temp_" ++ name ++ ".wav") :: fs0)
        = ⟨("temp_" ++ name ++ ".wav") :: fs0,
           [StemSep.Ev.predictCall ("temp_" ++ name ++ ".wav")], [], [], true⟩ := by
      simp [StemSep.stemTryBody, hp]
    simp [StemSep.stemBody, ht]
  · have ht : StemSep.stemTryBody env name (("temp_" ++ name ++ ".wav") :: fs0)
        = ⟨("temp_" ++ name ++ ".wav") :: fs0,
           [StemSep.Ev.predictCall ("temp_" ++ name ++ ".wav")], [], [], true⟩ := by
      simp [StemSep.stemTryBody, hp, hw]
    simp [StemSep.stemBody, ht]

/-- C9 counterexample: at an all-succeeding environment the bass stem
raises (the `logger.warning` event fires, because the MusicXML name
bookkeeping raises `AttributeError` after the MIDI entry was appended),
yet `bass.mid` IS in the returned stem list -- refuting the claim that a
stem whose conversion raises contributes no entries to the returned file
lists. -/
theorem c9_failed_stem_entry_cex :
    StemSep.Ev.warnFailed "bass"
        ∈ (StemSep.extract_stems_and_convert_to_midi envAllOk true "song.wav").2
    ∧ "bass.mid"
        ∈ (StemSep.extract_stems_and_convert_to_midi envAllOk true "song.wav").1.stemMidis :=
  ⟨by decide, by decide⟩

/-- C9 amended: when the temp-wav writes succeed (they sit outside the
per-stem `try`), every one of the five stems is processed and its temp
file `temp_{name}.wav` is written and then deleted before the next stem
is touched, whether the stem succeeded or failed; and a stem that fails
BEFORE its MIDI entry is appended (prediction or MIDI write fails)
contributes no entries to either returned list.  (A stem failing after
the MIDI append still contributes its MIDI entry, as the counterexample
shows.) -/
theorem c9_stem_isolation_and_cleanup (env : StemSep.Env) (audioPath : String)
    (m : StemSep.MidiH)
    (hmk : env.mkdir = .ok ()) (hld : env.load audioPath = .ok ())
    (hpm : env.predict audioPath = .ok m)
    (hwm : env.midiWrite m "full_song.mid" = .ok ())
    (hsf : ∀ p e s, env.sfWrite p e s = .ok ()) :
    ((StemSep.extract_stems_and_convert_to_midi env true audioPath).2.filter isTempEv
      = [StemSep.Ev.fsWrite "temp_bass.wav", StemSep.Ev.fsDelete "temp_bass.wav",
         StemSep.Ev.fsWrite "temp_kick.wav", StemSep.Ev.fsDelete "temp_kick.wav",
         StemSep.Ev.fsWrite "temp_melody.wav", StemSep.Ev.fsDelete "temp_melody.wav",
         StemSep.Ev.fsWrite "temp_percussion.wav", StemSep.Ev.fsDelete "temp_percussion.wav",
         StemSep.Ev.fsWrite "temp_harmony.wav", StemSep.Ev.fsDelete "temp_harmony.wav"])
    ∧ (∀ (name : String) (fs0 : List String),
        ((∃ e2, env.predict ("temp_" ++ name ++ ".wav") = .error e2) ∨
         (∃ mm e2, env.predict ("temp_" ++ name ++ ".wav") = .ok mm ∧
            env.midiWrite mm (name ++ ".mid") = .error e2)) →
        (StemSep.stemBody env name fs0).mids = []
          ∧ (StemSep.stemBody env name fs0).xmls = []) := by
  constructor
  · have hab := runStems_abort_none env hsf
      (create_frequency_based_stems SigExpr.input 22050) ["full_song.mid"]
    simp only [StemSep.extract_stems_and_convert_to_midi, hmk, hld, hpm, hwm, hab]
    cases hio : env.infoWrite <;>
      simp [hio, List.filter_append, isTempEv, tempNames,
        runStems_concrete_trace env hsf]
  · intro name fs0 h
    exact stemBody_early_fail env name fs0 h

/-- A stem-separation environment in which prediction fails exactly for
the kick stem. -/
@[reducible] def envKickFails : StemSep.Env :=
  { envAllOk with
    predict := fun p => if p = "temp_kick.wav" then .error "prediction failed" else .ok 0 }

/-- Witness for C9 at `envKickFails`: all hypotheses hold concretely, and
the theorem instantiates. -/
theorem c9_isolation_witness :
    (envKickFails.mkdir = .ok () ∧ envKickFails.load "song.wav" = .ok () ∧
     envKickFails.predict "song.wav" = .ok 0 ∧
     envKickFails.midiWrite 0 "full_song.mid" = .ok () ∧
     (∃ e2, envKickFails.predict "temp_kick.wav" = .error e2)) ∧
    ((StemSep.extract_stems_and_convert_to_midi envKickFails true "song.wav").2.filter isTempEv
      = [StemSep.Ev.fsWrite "temp_bass.wav", StemSep.Ev.fsDelete "temp_bass.wav",
         StemSep.Ev.fsWrite "temp_kick.wav", StemSep.Ev.fsDelete "temp_kick.wav",
         StemSep.Ev.fsWrite "temp_melody.wav", StemSep.Ev.fsDelete "temp_melody.wav",
         StemSep.Ev.fsWrite "temp_percussion.wav", StemSep.Ev.fsDelete "temp_percussion.wav",
         StemSep.Ev.fsWrite "temp_harmony.wav", StemSep.Ev.fsDelete "temp_harmony.wav"])
    ∧ (∀ (name : String) (fs0 : List String),
        ((∃ e2, envKickFails.predict ("temp_" ++ name ++ ".wav") = .error e2) ∨
         (∃ mm e2, envKickFails.predict ("temp_" ++ name ++ ".wav") = .ok mm ∧
            envKickFails.midiWrite mm (name ++ ".mid") = .error e2)) →
        (StemSep.stemBody envKickFails name fs0).mids = []
          ∧ (StemSep.stemBody envKickFails name fs0).xmls = []) :=
  ⟨⟨rfl, rfl, rfl, rfl, ⟨"prediction failed", rfl⟩⟩,
    c9_stem_isolation_and_cleanup envKickFails "song.wav" 0 rfl rfl rfl rfl
      (fun _ _ _ => rfl)⟩

/-! ## Catch-and-log error handling (C6) -/

/-- C6: both pipeline entry points are total functions of their
environments (they never propagate an exception).
`apply_audio_transformations` returns `True` exactly when every internal
step succeeded, and `False` otherwise; `extract_stems_and_convert_to_midi`
reports `success = True` exactly when every top-level step succeeded,
returns the failure dictionary `{success: False, error: message}` on any
top-level failure, and the dependency-guard dictionary when the imports
are unavailable. -/
theorem c6_catch_and_log_only :
    (∀ (dsp : AudioProcessing.DSP) (avail : Bool) (pitch : ℤ) (tempo : ℚ) (ap op : String),
      ((AudioProcessing.apply_audio_transformations dsp avail pitch tempo ap op).1 = true
        ↔ (avail = true ∧ ∃ y sr t1 t2 t3,
            dsp.load ap = .ok (y, sr) ∧
            dsp.pitch_shift sr pitch y = .ok t1 ∧
            dsp.time_stretch tempo t1 = .ok t2 ∧
            AudioProcessing.apply_eq_filter dsp t2 sr = .ok t3 ∧
            dsp.sf_write op
              (Audio.stereo (normalizeStereo (AudioProcessing.create_stereo_from_mono
                (AudioProcessing.add_subtle_distortion dsp.th
                  (AudioProcessing.apply_compression
                    (AudioProcessing.add_reverb_effect t3 sr)))))) sr = .ok ())))
    ∧
    (∀ (env : StemSep.Env) (ap : String),
      ((StemSep.extract_stems_and_convert_to_midi env true ap).1.success = true
        ↔ (env.mkdir = .ok () ∧ env.load ap = .ok () ∧ ∃ m,
            env.predict ap = .ok m ∧ env.midiWrite m "full_song.mid" = .ok () ∧
            (StemSep.runStems env (create_frequency_based_stems SigExpr.input 22050)
              ["full_song.mid"]).abort = none)))
    ∧
    (∀ (env : StemSep.Env) (ap : String) (r : StemSep.ExtractResult)
        (evs : List StemSep.Ev),
      StemSep.extract_stems_and_convert_to_midi env true ap = (r, evs) →
      r.success = false → ∃ e, r = StemSep.failResult e)
    ∧
    (∀ (env : StemSep.Env) (ap : String),
      (StemSep.extract_stems_and_convert_to_midi env false ap).1
        = { success := false, error := some "Audio processing dependencies not installed",
            mainMidi := none, stemMidis := [], musicxmlFiles := [],
            stemsCreated := [] }) := by
  refine ⟨?_, ?_, ?_, ?_⟩
  · intro dsp avail pitch tempo ap op
    constructor
    · intro h1
      cases avail with
      | false => simp [AudioProcessing.apply_audio_transformations] at h1
      | true =>
        have hpair : AudioProcessing.apply_audio_transformations dsp true pitch tempo ap op
            = (true, (AudioProcessing.apply_audio_transformations dsp true pitch tempo ap op).2) := by
          have heta := Prod.mk.eta
            (p := AudioProcessing.apply_audio_transformations dsp true pitch tempo ap op)
          rw [h1] at heta
          exact heta.symm
        obtain ⟨y, sr, t1, t2, t3, hl, hp2, ht2, he2, hw2, -⟩ :=
          pipeline_success_shape dsp pitch tempo ap op _ hpair
        exact ⟨rfl, y, sr, t1, t2, t3, hl, hp2, ht2, he2, hw2⟩
    · rintro ⟨havail, y, sr, t1, t2, t3, hl, hp2, ht2, he2, hw2⟩
      subst havail
      simp [AudioProcessing.apply_audio_transformations, hl, hp2, ht2, he2, hw2,
        Audio.ndim, normalizeAudio]
  · intro env ap
    constructor
    · intro h1
      simp only [StemSep.extract_stems_and_convert_to_midi] at h1
      cases hmk : env.mkdir with
      | error e => simp [hmk, StemSep.failResult] at h1
      | ok u1 =>
        cases hld : env.load ap with
        | error e => simp [hmk, hld, StemSep.failResult] at h1
        | ok u2 =>
          cases hpm : env.predict ap with
          | error e => simp [hmk, hld, hpm, StemSep.failResult] at h1
          | ok m =>
            cases hwm : env.midiWrite m "full_song.mid" with
            | error e => simp [hmk, hld, hpm, hwm, StemSep.failResult] at h1
            | ok u3 =>
              cases hab : (StemSep.runStems env
                  (create_frequency_based_stems SigExpr.input 22050)
                  ["full_song.mid"]).abort with
              | some e => simp [hmk, hld, hpm, hwm, hab, StemSep.failResult] at h1
              | none =>
                cases u3
                exact ⟨rfl, rfl, m, rfl, hwm, rfl⟩
    · rintro ⟨hmk, hld, m, hpm, hwm, hab⟩
      simp [StemSep.extract_stems_and_convert_to_midi, hmk, hld, hpm, hwm, hab]
  · intro env ap r evs h hsucc
    simp only [StemSep.extract_stems_and_convert_to_midi] at h
    cases hmk : env.mkdir with
    | error e =>
      refine ⟨e, ?_⟩
      simp only [hmk] at h
      exact (Prod.mk.injEq _ _ _ _ ▸ h).1.symm
    | ok u1 =>
      cases hld : env.load ap with
      | error e =>
        refine ⟨e, ?_⟩
        simp only [hmk, hld] at h
        exact (Prod.mk.injEq _ _ _ _ ▸ h).1.symm
      | ok u2 =>
        cases hpm : env.predict ap with
        | error e =>
          refine ⟨e, ?_⟩
          simp only [hmk, hld, hpm] at h
          exact (Prod.mk.injEq _ _ _ _ ▸ h).1.symm
        | ok m =>
          cases hwm : env.midiWrite m "full_song.mid" with
          | error e =>
            refine ⟨e, ?_⟩
            simp only [hmk, hld, hpm, hwm] at h
            exact (Prod.mk.injEq _ _ _ _ ▸ h).1.symm
          | ok u3 =>
            cases hab : (StemSep.runStems env
                (create_frequency_based_stems SigExpr.input 22050)
                ["full_song.mid"]).abort with
            | some e =>
              refine ⟨e, ?_⟩
              simp only [hmk, hld, hpm, hwm, hab] at h
              exact (Prod.mk.injEq _ _ _ _ ▸ h).1.symm
            | none =>
              simp only [hmk, hld, hpm, hwm, hab] at h
              have hr := (Prod.mk.injEq _ _ _ _ ▸ h).1
              rw [← hr] at hsucc
              simp at hsucc
  · intro env ap
    rfl

/-- Witness for C6: part one instantiated at the all-succeeding pipeline
environment, part four at the all-succeeding stem environment. -/
theorem c6_catch_and_log_witness :
    ((AudioProcessing.apply_audio_transformations dspAllOk true 1 1 "in.wav" "out.wav").1 = true
      ↔ (true = true ∧ ∃ y sr t1 t2 t3,
          dspAllOk.load "in.wav" = .ok (y, sr) ∧
          dspAllOk.pitch_shift sr 1 y = .ok t1 ∧
          dspAllOk.time_stretch 1 t1 = .ok t2 ∧
          AudioProcessing.apply_eq_filter dspAllOk t2 sr = .ok t3 ∧
          dspAllOk.sf_write "out.wav"
            (Audio.stereo (normalizeStereo (AudioProcessing.create_stereo_from_mono
              (AudioProcessing.add_subtle_distortion dspAllOk.th
                (AudioProcessing.apply_compression
                  (AudioProcessing.add_reverb_effect t3 sr)))))) sr = .ok ()))
    ∧ (StemSep.extract_stems_and_convert_to_midi envAllOk false "song.wav").1
        = { success := false, error := some "Audio processing dependencies not installed",
            mainMidi := none, stemMidis := [], musicxmlFiles := [],
            stemsCreated := [] } :=
  ⟨c6_catch_and_log_only.1 dspAllOk true 1 1 "in.wav" "out.wav",
    c6_catch_and_log_only.2.2.2 envAllOk "song.wav"⟩

/-! ## The API layer (`backend/api/__init__.py`)

MongoDB is modelled as an association list from project id to document,
`update_one` with `$set` as a pointwise map on the matching entry, and
the uploads directory as the path prefix `uploads/`. -/

namespace Api

/-- A project document, with the fields the handlers read or `$set`
(`backend/models/__init__.py`); `updated_at` is an abstract timestamp. -/
structure ProjectDoc where
  originalFile : Option String
  transformedFile : Option String
  lyrics : Option String
  style : Option String
  stemsDirectory : Option String
  midiFiles : List String
  musicxmlFiles : List String
  mainMidi : Option String
  transformationType : Option String
  transformationComplete : Bool
  updatedAt : ℕ
  deriving DecidableEq

abbrev Db := List (String × ProjectDoc)

/-- `db.projects.update_one({"id": pid}, {"$set": ...})`: ids are unique,
so updating every matching entry models updating the one document. -/
def dbUpdate (db : Db) (pid : String) (f : ProjectDoc → ProjectDoc) : Db :=
  db.map (fun kv => if kv.1 = pid then (kv.1, f kv.2) else kv)

structure HttpErr where
  status : ℕ
  detail : String
  deriving DecidableEq

/-- `PurePath.name`: the final nonempty path component (POSIX). -/
def pyName (path : String) : String :=
  match ((path.splitOn "/").filter (fun s => s ≠ "")).getLast? with
  | some s => s
  | none => ""

/-- `PurePath.suffix`: with `i` the position of the last dot of the name,
the substring from `i` when `0 < i < len(name) - 1`, else empty. -/
def pySuffix (path : String) : String :=
  let name := pyName path
  let cs := name.toList
  match cs.reverse.findIdx? (fun c => c == '.') with
  | none => ""
  | some j =>
    let i := cs.length - 1 - j
    if 0 < i ∧ i < cs.length - 1 then String.mk (cs.drop i) else ""

/-- The upload handler's content-type whitelist. -/
def allowedTypes : List String := ["audio/mpeg", "audio/wav", "audio/mp3", "audio/x-wav"]

structure UploadEnv where
  now : ℕ
  fileWrite : String → Except String Unit

/-- Embedding of `upload_file` (api/__init__.py lines 104-135): look the
project up, validate the content type, save the file as
`{project_id}_original{ext}` under the uploads directory, then record
that filename in the document's `original_file`.  Returns the response,
the database afterwards, and the list of paths written. -/
def upload_file (env : UploadEnv) (db : Db) (pid : String)
    (contentType fileName : String) :
    Except HttpErr (String × String) × Db × List String :=
  match db.lookup pid with
  | none => (.error ⟨404, "Project not found"⟩, db, [])
  | some _ =>
    if contentType ∈ allowedTypes then
      let fname := pid ++ "_original" ++ pySuffix fileName
      match env.fileWrite ("uploads/" ++ fname) with
      | .error e => (.error ⟨500, e⟩, db, [])
      | .ok _ =>
        (.ok ("File uploaded successfully", fname),
         dbUpdate db pid (fun d => { d with originalFile := some fname,
                                            updatedAt := env.now }),
         ["uploads/" ++ fname])
    else (.error ⟨400, "Invalid file type. Please upload audio files only."⟩, db, [])

structure TransformEnv where
  now : ℕ
  mkdirStems : Except String Unit

/-- Embedding of `transform_beat` (api/__init__.py lines 139-196): 404
when the project is missing, 400 when it has no original file, 404 when
the file is gone from disk; otherwise make the stems directory, run
`extract_stems_and_convert_to_midi`, fail with 500 when it reports
failure (the `HTTPException` raised in the `try` is re-raised by the
generic handler; detail strings of the 500 responses are modelled up to
that exception-to-string formatting), and only on success `$set` the
transformation fields on the document. -/
def transform_beat (env : TransformEnv) (stemEnv : StemSep.Env) (available : Bool)
    (db : Db) (fs : List String) (pid : String) :
    Except HttpErr (String × List String × List String) × Db :=
  match db.lookup pid with
  | none => (.error ⟨404, "Project not found"⟩, db)
  | some doc =>
    match doc.originalFile with
    | none => (.error ⟨400, "No original file found. Please upload a file first."⟩, db)
    | some orig =>
      if ("uploads/" ++ orig) ∈ fs then
        match env.mkdirStems with
        | .error e => (.error ⟨500, "Beat transformation failed: " ++ e⟩, db)
        | .ok _ =>
          let r := StemSep.extract_stems_and_convert_to_midi stemEnv available
            ("uploads/" ++ orig)
          if r.1.success then
            (.ok ("Beat successfully converted to MIDI stems and MusicXML files",
                  r.1.stemMidis, r.1.musicxmlFiles),
             dbUpdate db pid (fun d =>
               { d with stemsDirectory := some (pid ++ "_stems"),
                        midiFiles := r.1.stemMidis,
                        musicxmlFiles := r.1.musicxmlFiles,
                        mainMidi := r.1.mainMidi,
                        transformationType := some "advanced_stems_midi",
                        transformationComplete := true,
                        updatedAt := env.now }))
          else
            (.error ⟨500, "Audio transformation failed: "
                ++ r.1.error.getD "Unknown error"⟩, db)
      else (.error ⟨404, "Original file not found"⟩, db)

end Api

lemma dbUpdate_lookup (db : Api.Db) (pid : String) (f : Api.ProjectDoc → Api.ProjectDoc) :
    (Api.dbUpdate db pid f).lookup pid = (db.lookup pid).map f := by
  induction db with
  | nil => rfl
  | cons kv t ih =>
    obtain ⟨k, v⟩ := kv
    by_cases hk : k = pid
    · subst hk
      have hmap : Api.dbUpdate ((k, v) :: t) k f = (k, f v) :: Api.dbUpdate t k f := by
        simp [Api.dbUpdate]
      rw [hmap]
      simp [List.lookup]
    · have hmap : Api.dbUpdate ((k, v) :: t) pid f = (k, v) :: Api.dbUpdate t pid f := by
        simp [Api.dbUpdate, hk]
      rw [hmap]
      have hb : (pid == k) = false := beq_eq_false_iff_ne.mpr (Ne.symm hk)
      simp [List.lookup, hb, ih]

/-- C7: when the project id is unknown the upload responds 404 and
writes nothing, leaving the database unchanged; when the project exists
and the content type is accepted, the file is stored under the uploads
directory as `{project_id}_original{ext}` (with `ext` the pathlib suffix
of the uploaded filename), and that filename is recorded in the
document's `original_file` field. -/
theorem c7_upload_semantics (env : Api.UploadEnv) (db : Api.Db) (pid ct fn : String) :
    (db.lookup pid = none →
      Api.upload_file env db pid ct fn
        = (.error ⟨404, "Project not found"⟩, db, []))
    ∧ (∀ doc, db.lookup pid = some doc → ct ∈ Api.allowedTypes →
        env.fileWrite ("uploads/" ++ (pid ++ "_original" ++ Api.pySuffix fn)) = .ok () →
        Api.upload_file env db pid ct fn
          = (.ok ("File uploaded successfully", pid ++ "_original" ++ Api.pySuffix fn),
             Api.dbUpdate db pid (fun d =>
               { d with originalFile := some (pid ++ "_original" ++ Api.pySuffix fn),
                        updatedAt := env.now }),
             ["uploads/" ++ (pid ++ "_original" ++ Api.pySuffix fn)])
        ∧ (Api.dbUpdate db pid (fun d =>
               { d with originalFile := some (pid ++ "_original" ++ Api.pySuffix fn),
                        updatedAt := env.now })).lookup pid
            = some { doc with
                originalFile := some (pid ++ "_original" ++ Api.pySuffix fn),
                updatedAt := env.now }) := by
  constructor
  · intro hnone
    simp [Api.upload_file, hnone]
  · intro doc hsome hct hw
    refine ⟨by simp [Api.upload_file, hsome, hct, hw], ?_⟩
    rw [dbUpdate_lookup, hsome]
    rfl

/-- An empty project document. -/
def emptyDoc : Api.ProjectDoc :=
  ⟨none, none, none, none, none, [], [], none, none, false, 0⟩

@[reducible] def upEnvW : Api.UploadEnv := ⟨42, fun _ => .ok ()⟩

/-- Witness for C7 at a concrete database and upload. -/
theorem c7_upload_witness :
    (([("p1", emptyDoc)] : Api.Db).lookup "p1" = some emptyDoc ∧
     "audio/wav" ∈ Api.allowedTypes ∧
     upEnvW.fileWrite ("uploads/" ++ ("p1" ++ "_original" ++ Api.pySuffix "song.mp3"))
        = .ok ()) ∧
    (Api.upload_file upEnvW [("p1", emptyDoc)] "p1" "audio/wav" "song.mp3"
        = (.ok ("File uploaded successfully", "p1" ++ "_original" ++ Api.pySuffix "song.mp3"),
           Api.dbUpdate [("p1", emptyDoc)] "p1" (fun d =>
             { d with originalFile := some ("p1" ++ "_original" ++ Api.pySuffix "song.mp3"),
                      updatedAt := upEnvW.now }),
           ["uploads/" ++ ("p1" ++ "_original" ++ Api.pySuffix "song.mp3")])
      ∧ (Api.dbUpdate [("p1", emptyDoc)] "p1" (fun d =>
             { d with originalFile := some ("p1" ++ "_original" ++ Api.pySuffix "song.mp3"),
                      updatedAt := upEnvW.now })).lookup "p1"
          = some ⟨some ("p1" ++ "_original" ++ Api.pySuffix "song.mp3"), none, none, none,
                  none, [], [], none, none, false, upEnvW.now⟩) := by
  refine ⟨⟨rfl, by decide, rfl⟩, ?_⟩
  have h := (c7_upload_semantics upEnvW [("p1", emptyDoc)] "p1" "audio/wav" "song.mp3").2
    emptyDoc rfl (by decide) rfl
  simpa [emptyDoc] using h

/-- C8: the transform endpoint leaves the project document untouched on
every error response (missing project, missing original file, file gone
from disk, directory failure, or the extraction reporting failure), and
updates it only after the extraction has succeeded. -/
theorem c8_transform_endpoint_atomic (env : Api.TransformEnv) (stemEnv : StemSep.Env)
    (available : Bool) (db : Api.Db) (fs : List String) (pid : String) :
    (∀ err, (Api.transform_beat env stemEnv available db fs pid).1 = .error err →
      (Api.transform_beat env stemEnv available db fs pid).2 = db)
    ∧ (∀ okv, (Api.transform_beat env stemEnv available db fs pid).1 = .ok okv →
        ∃ doc orig,
          db.lookup pid = some doc ∧ doc.originalFile = some orig ∧
          (StemSep.extract_stems_and_convert_to_midi stemEnv available
            ("uploads/" ++ orig)).1.success = true ∧
          (Api.transform_beat env stemEnv available db fs pid).2
            = Api.dbUpdate db pid (fun d =>
                { d with stemsDirectory := some (pid ++ "_stems"),
                         midiFiles := (StemSep.extract_stems_and_convert_to_midi stemEnv
                           available ("uploads/" ++ orig)).1.stemMidis,
                         musicxmlFiles := (StemSep.extract_stems_and_convert_to_midi stemEnv
                           available ("uploads/" ++ orig)).1.musicxmlFiles,
                         mainMidi := (StemSep.extract_stems_and_convert_to_midi stemEnv
                           available ("uploads/" ++ orig)).1.mainMidi,
                         transformationType := some "advanced_stems_midi",
                         transformationComplete := true,
                         updatedAt := env.now })) := by
  cases hlk : db.lookup pid with
  | none =>
    refine ⟨fun err _ => by simp [Api.transform_beat, hlk], fun okv hok => ?_⟩
    simp [Api.transform_beat, hlk] at hok
  | some doc =>
    cases horig : doc.originalFile with
    | none =>
      refine ⟨fun err _ => by simp [Api.transform_beat, hlk, horig], fun okv hok => ?_⟩
      simp [Api.transform_beat, hlk, horig] at hok
    | some orig =>
      by_cases hfs : ("uploads/" ++ orig) ∈ fs
      · cases hmk : env.mkdirStems with
        | error e =>
          refine ⟨fun err _ => by simp [Api.transform_beat, hlk, horig, hfs, hmk],
            fun okv hok => ?_⟩
          simp [Api.transform_beat, hlk, horig, hfs, hmk] at hok
        | ok u =>
          by_cases hsucc : (StemSep.extract_stems_and_convert_to_midi stemEnv available
              ("uploads/" ++ orig)).1.success = true
          · refine ⟨fun err herr => ?_, fun okv hok => ?_⟩
            · simp [Api.transform_beat, hlk, horig, hfs, hmk, hsucc] at herr
            · exact ⟨doc, orig, rfl, horig, hsucc,
                by simp [Api.transform_beat, hlk, horig, hfs, hmk, hsucc]⟩
          · refine ⟨fun err _ => ?_, fun okv hok => ?_⟩
            · simp [Api.transform_beat, hlk, horig, hfs, hmk, hsucc]
            · simp [Api.transform_beat, hlk, horig, hfs, hmk, hsucc] at hok
      · refine ⟨fun err _ => by simp [Api.transform_beat, hlk, horig, hfs],
          fun okv hok => ?_⟩
        simp [Api.transform_beat, hlk, horig, hfs] at hok

/-- A project document that already has an uploaded original file. -/
def docWithOrig : Api.ProjectDoc := { emptyDoc with originalFile := some "p1_original.mp3" }

@[reducible] def trEnvW : Api.TransformEnv := ⟨7, .ok ()⟩

/-- Witness for C8: a concrete successful transform run. -/
theorem c8_transform_witness :
    ((Api.transform_beat trEnvW envAllOk true [("p1", docWithOrig)]
        ["uploads/p1_original.mp3"] "p1").1
      = .ok ("Beat successfully converted to MIDI stems and MusicXML files",
             ["bass.mid", "kick.mid", "melody.mid", "percussion.mid", "harmony.mid"],
             ([] : List String))) ∧
    (∃ doc orig,
      ([("p1", docWithOrig)] : Api.Db).lookup "p1" = some doc ∧
      doc.originalFile = some orig ∧
      (StemSep.extract_stems_and_convert_to_midi envAllOk true
        ("uploads/" ++ orig)).1.success = true ∧
      (Api.transform_beat trEnvW envAllOk true [("p1", docWithOrig)]
          ["uploads/p1_original.mp3"] "p1").2
        = Api.dbUpdate [("p1", docWithOrig)] "p1" (fun d =>
            { d with stemsDirectory := some ("p1" ++ "_stems"),
                     midiFiles := (StemSep.extract_stems_and_convert_to_midi envAllOk
                       true ("uploads/" ++ orig)).1.stemMidis,
                     musicxmlFiles := (StemSep.extract_stems_and_convert_to_midi envAllOk
                       true ("uploads/" ++ orig)).1.musicxmlFiles,
                     mainMidi := (StemSep.extract_stems_and_convert_to_midi envAllOk
                       true ("uploads/" ++ orig)).1.mainMidi,
                     transformationType := some "advanced_stems_midi",
                     transformationComplete := true,
                     updatedAt := trEnvW.now })) :=
  ⟨by decide,
    (c8_transform_endpoint_atomic trEnvW envAllOk true [("p1", docWithOrig)]
        ["uploads/p1_original.mp3"] "p1").2
      ("Beat successfully converted to MIDI stems and MusicXML files",
       ["bass.mid", "kick.mid", "melody.mid", "percussion.mid", "harmony.mid"],
       ([] : List String)) (by decide)⟩

/-! ## The lyrics service (`backend/services/__init__.py`)

The external LLM chat API (`LlmChat.acreate`) is an uninterpreted
fallible function from the prompt to the response text; the trace of
prompts sent counts the API requests. -/

namespace Services

structure LyricsRequest where
  projectId : String
  style : String
  customPrompt : Option String
  userStyleId : Option String

structure LyricsResponse where
  lyrics : String
  style : String
  deriving DecidableEq

structure UserStyleDoc where
  name : String
  description : String
  sampleLyrics : String

structure LlmEnv where
  available : Bool
  acreate : String → Except String String

/-- The indented triple-quoted tail appended to every predefined-style
prompt (services/__init__.py lines 43-53), reproduced byte for byte. -/
def lyricsPromptSuffix : String :=
  "\n        \n        Please provide:\n        1. Original, creative lyrics (avoid clichÃ©s when possible)\n        2. Good rhyme schemes and flow\n        3. Appropriate content for the specified style\n        4. 2-3 verses and a chorus structure\n        5. Make it copyright-ready and original\n        \n        Format the response clearly with verse/chorus labels.\n        "

/-- The prompt built by `generate_lyrics` (lines 37-53): the
style-specific base, the optional custom instructions, and the fixed
tail. -/
def buildPrompt (r : LyricsRequest) : String :=
  let base := "Create original rap lyrics in the " ++ r.style ++ " style."
  let base := match r.customPrompt with
    | some c => base ++ " Additional instructions: " ++ c
    | none => base
  base ++ lyricsPromptSuffix

/-- The f-string prompt of `generate_lyrics_with_user_style` (lines
80-91), reproduced byte for byte. -/
def userStylePrompt (us : UserStyleDoc) (customPrompt : Option String) : String :=
  "\n        Create original rap lyrics based on this style profile:\n        \n        Style Name: "
    ++ us.name
    ++ "\n        Description: " ++ us.description
    ++ "\n        Sample Lyrics: " ++ us.sampleLyrics
    ++ "\n        \n        "
    ++ (match customPrompt with
        | some c => "Additional instructions: " ++ c
        | none => "")
    ++ "\n        \n        Please create original lyrics that match this style while being completely unique and copyright-ready.\n        Include 2-3 verses and a chorus.\n        "

/-- Embedding of `generate_lyrics` (lines 27-70): raise when the AI
dependencies are unavailable, otherwise build the prompt, send it once,
and return the response text unchanged (`response.content if hasattr
else str(response)` is the identity on the modelled string response); on
any API failure raise `Failed to generate lyrics: ...` without retrying.
The second component is the list of prompts sent to the API. -/
def generate_lyrics (env : LlmEnv) (r : LyricsRequest) :
    Except String LyricsResponse × List String :=
  if env.available then
    let p := buildPrompt r
    match env.acreate p with
    | .ok resp => (.ok ⟨resp, r.style⟩, [p])
    | .error e => (.error ("Failed to generate lyrics: " ++ e), [p])
  else (.error "AI services dependencies not installed", [])

/-- Embedding of `generate_lyrics_with_user_style` (lines 73-101): here
the availability guard sits inside `get_llm_chat`, whose exception the
handler wraps. -/
def generate_lyrics_with_user_style (env : LlmEnv) (us : UserStyleDoc)
    (customPrompt : Option String) : Except String String × List String :=
  if env.available then
    let p := userStylePrompt us customPrompt
    match env.acreate p with
    | .ok resp => (.ok resp, [p])
    | .error e => (.error ("Failed to generate lyrics: " ++ e), [p])
  else (.error "Failed to generate lyrics: AI services dependencies not installed", [])

end Services

/-- C5: with the AI dependencies available, each lyric-generation entry
point builds exactly one style-specific prompt and sends exactly one
request to the LLM API; on success the response text is returned without
inspection (for every possible response string), and on failure the
wrapped exception is raised -- no retry, so the request trace stays a
singleton in both cases. -/
theorem c5_single_llm_request (env : Services.LlmEnv) (r : Services.LyricsRequest)
    (us : Services.UserStyleDoc) (cp : Option String) (h : env.available = true) :
    ((Services.generate_lyrics env r).2 = [Services.buildPrompt r]) ∧
    (∀ resp, env.acreate (Services.buildPrompt r) = .ok resp →
      (Services.generate_lyrics env r).1 = .ok ⟨resp, r.style⟩) ∧
    (∀ e, env.acreate (Services.buildPrompt r) = .error e →
      (Services.generate_lyrics env r).1 = .error ("Failed to generate lyrics: " ++ e)) ∧
    ((Services.generate_lyrics_with_user_style env us cp).2
      = [Services.userStylePrompt us cp]) ∧
    (∀ resp, env.acreate (Services.userStylePrompt us cp) = .ok resp →
      (Services.generate_lyrics_with_user_style env us cp).1 = .ok resp) ∧
    (∀ e, env.acreate (Services.userStylePrompt us cp) = .error e →
      (Services.generate_lyrics_with_user_style env us cp).1
        = .error ("Failed to generate lyrics: " ++ e)) := by
  refine ⟨?_, ?_, ?_, ?_, ?_, ?_⟩
  · cases ha : env.acreate (Services.buildPrompt r) <;>
      simp [Services.generate_lyrics, h, ha]
  · intro resp ha
    simp [Services.generate_lyrics, h, ha]
  · intro e ha
    simp [Services.generate_lyrics, h, ha]
  · cases ha : env.acreate (Services.userStylePrompt us cp) <;>
      simp [Services.generate_lyrics_with_user_style, h, ha]
  · intro resp ha
    simp [Services.generate_lyrics_with_user_style, h, ha]
  · intro e ha
    simp [Services.generate_lyrics_with_user_style, h, ha]

@[reducible] def llmEnvW : Services.LlmEnv :=
  ⟨true, fun _ => .ok "generated lyrics"⟩

def lyricsReqW : Services.LyricsRequest := ⟨"p1", "trap", none, none⟩

def userStyleW : Services.UserStyleDoc := ⟨"mystyle", "dark", "sample bars"⟩

/-- Witness for C5 at a concrete environment and request. -/
theorem c5_single_llm_request_witness :
    llmEnvW.available = true ∧
    (((Services.generate_lyrics llmEnvW lyricsReqW).2 = [Services.buildPrompt lyricsReqW]) ∧
    (∀ resp, llmEnvW.acreate (Services.buildPrompt lyricsReqW) = .ok resp →
      (Services.generate_lyrics llmEnvW lyricsReqW).1 = .ok ⟨resp, lyricsReqW.style⟩) ∧
    (∀ e, llmEnvW.acreate (Services.buildPrompt lyricsReqW) = .error e →
      (Services.generate_lyrics llmEnvW lyricsReqW).1
        = .error ("Failed to generate lyrics: " ++ e)) ∧
    ((Services.generate_lyrics_with_user_style llmEnvW userStyleW none).2
      = [Services.userStylePrompt userStyleW none]) ∧
    (∀ resp, llmEnvW.acreate (Services.userStylePrompt userStyleW none) = .ok resp →
      (Services.generate_lyrics_with_user_style llmEnvW userStyleW none).1 = .ok resp) ∧
    (∀ e, llmEnvW.acreate (Services.userStylePrompt userStyleW none) = .error e →
      (Services.generate_lyrics_with_user_style llmEnvW userStyleW none).1
        = .error ("Failed to generate lyrics: " ++ e))) :=
  ⟨rfl, c5_single_llm_request llmEnvW lyricsReqW userStyleW none rfl⟩

end LyricsBeats
